import Mathlib

/-!
Verification of the generic bit-flag register `FlagManager<T>` from
`flagManager.h` and its standalone helper `compareFlags`.

The C++ class is parameterized over an unsigned storage type `T`
(`uint8_t`, `uint16_t`, `uint32_t`); its state is the single field
`flags : T` and the derived constant `numFlags = sizeof(T) * 8`.
We embed the class shallowly: the register state is a natural number
(the value of `flags`), the width in bits is an explicit parameter
`w` (8, 16 or 32 for the supported instantiations), and each member
function becomes a function on the state.  Flag indices are `Int`,
matching the C++ parameter type `int`.  Bitwise complement `~` on `T`
is complement at width `w`, i.e. XOR with the all-ones mask `2^w - 1`.
-/

namespace FlagManager

/-- Bitwise complement at width `w` bits: models the C++ operator `~`
applied to a value of the unsigned type `T` with `w = 8 * sizeof(T)`. -/
def compl (w x : Nat) : Nat := (2 ^ w - 1) ^^^ x

/-- Derived constant `numFlags = sizeof(T) * 8`, in terms of the byte
size of the storage type. -/
def numFlags (sizeofT : Nat) : Nat := sizeofT * 8

/-- Constructor `FlagManager() : flags(0)`: the initial register state. -/
def mk : Nat := 0

/-- Member `getRawFlags()`: returns the raw register value. -/
def getRawFlags (flags : Nat) : Nat := flags

/-- Member `getCapacity()`: returns `numFlags`, here the width `w`. -/
def getCapacity (w : Nat) : Nat := w

/-- Member `setFlag(flagIndex)`: if `0 <= flagIndex < numFlags` then
`flags |= ((T)1 << flagIndex)`, otherwise no effect. -/
def setFlag (w : Nat) (flags : Nat) (flagIndex : Int) : Nat :=
  if 0 ≤ flagIndex ∧ flagIndex < (w : Int) then
    flags ||| (1 <<< flagIndex.toNat)
  else flags

/-- Member `clearFlag(flagIndex)`: if `0 <= flagIndex < numFlags` then
`flags &= ~((T)1 << flagIndex)`, otherwise no effect. -/
def clearFlag (w : Nat) (flags : Nat) (flagIndex : Int) : Nat :=
  if 0 ≤ flagIndex ∧ flagIndex < (w : Int) then
    flags &&& compl w (1 <<< flagIndex.toNat)
  else flags

/-- Member `checkFlag(flagIndex)`: if `0 <= flagIndex < numFlags`
returns `(flags & ((T)1 << flagIndex)) != 0`, otherwise `false`. -/
def checkFlag (w : Nat) (flags : Nat) (flagIndex : Int) : Bool :=
  if 0 ≤ flagIndex ∧ flagIndex < (w : Int) then
    decide (flags &&& (1 <<< flagIndex.toNat) ≠ 0)
  else false

/-- Member `toggleFlag(flagIndex)`: if `0 <= flagIndex < numFlags` then
`flags ^= ((T)1 << flagIndex)`, otherwise no effect. -/
def toggleFlag (w : Nat) (flags : Nat) (flagIndex : Int) : Nat :=
  if 0 ≤ flagIndex ∧ flagIndex < (w : Int) then
    flags ^^^ (1 <<< flagIndex.toNat)
  else flags

/-- Member `clearAllFlags()`: `flags = 0`. -/
def clearAllFlags (_flags : Nat) : Nat := 0

/-- Member `setAllFlags()`: `flags = ~((T)0)`. -/
def setAllFlags (w : Nat) (_flags : Nat) : Nat := compl w 0

/-- Modelled from the spec: the member `setFlags(v)` appears in the
specification's operation table (`register ← v`, "no validation;
caller-supplied value adopted verbatim") but is absent from
`src/flagManager.h`; we model it as the verbatim assignment `flags = v`. -/
def setFlags (_flags v : Nat) : Nat := v

/-- Member `getFlagsString()`: builds the string by appending, for
`i = numFlags - 1` down to `0`, the character `'1'` if
`flags & ((T)1 << i)` is non-zero and `'0'` otherwise.  The Arduino
`String` is modelled as a `List Char`. -/
def getFlagsString (w flags : Nat) : List Char :=
  ((List.range w).reverse).map
    (fun i => if flags &&& (1 <<< i) ≠ 0 then '1' else '0')

/-- Member `getInverseFlagsString()`: same loop with the two branch
characters swapped. -/
def getInverseFlagsString (w flags : Nat) : List Char :=
  ((List.range w).reverse).map
    (fun i => if flags &&& (1 <<< i) ≠ 0 then '0' else '1')

end FlagManager

/-- Standalone helper `compareFlags(fm1, fm2)`: returns `1` if the two
raw values are equal, else `-1` if their bitwise AND is non-zero, else
`0`. -/
def compareFlags (flags1 flags2 : Nat) : Int :=
  if flags1 = flags2 then 1
  else if flags1 &&& flags2 ≠ 0 then -1
  else 0

namespace FlagManager

/-- Testing a single-bit mask: `flags &&& (1 <<< i)` is non-zero
exactly when bit `i` of `flags` is set. -/
lemma and_one_shift_ne_zero (flags i : Nat) :
    (flags &&& (1 <<< i) ≠ 0) ↔ flags.testBit i := by
  rw [Nat.one_shiftLeft, Nat.and_two_pow]
  cases h : flags.testBit i <;>
    simp [h, Nat.pow_eq_zero]

/-- On a valid index, `checkFlag` is exactly the test of bit
`flagIndex` of the register. -/
lemma checkFlag_eq_testBit (w x : Nat) (i : Int)
    (h : 0 ≤ i ∧ i < (w : Int)) :
    checkFlag w x i = x.testBit i.toNat := by
  simp only [checkFlag, if_pos h]
  cases hb : x.testBit i.toNat with
  | false =>
    have hz : ¬ (x &&& (1 <<< i.toNat) ≠ 0) := by
      rw [and_one_shift_ne_zero, hb]; simp
    simp [hz]
  | true =>
    have hnz : x &&& (1 <<< i.toNat) ≠ 0 := by
      rw [and_one_shift_ne_zero, hb]
    simp [hnz]

/-- Claim C1: for every index `i` with `i < 0` or `i ≥ capacity`, the
mutators `setFlag`, `clearFlag` and `toggleFlag` leave the register
state completely unchanged, and `checkFlag` returns `false`; no error
is signaled (there is no error channel in any of these operations). -/
theorem out_of_range_noop (w flags : Nat) (i : Int)
    (h : i < 0 ∨ (w : Int) ≤ i) :
    setFlag w flags i = flags ∧ clearFlag w flags i = flags ∧
    toggleFlag w flags i = flags ∧ checkFlag w flags i = false := by
  have hc : ¬ (0 ≤ i ∧ i < (w : Int)) := by omega
  simp [setFlag, clearFlag, toggleFlag, checkFlag, hc]

/-- Witness for C1: the negative index `-1` on an 8-bit register with
raw value `165` leaves the state unchanged and queries as `false`. -/
theorem out_of_range_noop_witness :
    setFlag 8 165 (-1) = 165 ∧ clearFlag 8 165 (-1) = 165 ∧
    toggleFlag 8 165 (-1) = 165 ∧ checkFlag 8 165 (-1) = false :=
  out_of_range_noop 8 165 (-1) (Or.inl (by decide))

/-- Claim C5: for a valid index `i`, applying `toggleFlag i` twice
leaves the register state unchanged (involution). -/
theorem toggleFlag_involution (w flags : Nat) (i : Int)
    (h : 0 ≤ i ∧ i < (w : Int)) :
    toggleFlag w (toggleFlag w flags i) i = flags := by
  simp [toggleFlag, h, Nat.xor_cancel_right]

/-- Witness for C5: toggling bit 3 of the 8-bit register value `129`
twice restores `129`. -/
theorem toggleFlag_involution_witness :
    toggleFlag 8 (toggleFlag 8 129 3) 3 = 129 :=
  toggleFlag_involution 8 129 3 (by decide)

/-- Claim C6: from any register state, `clearAllFlags` followed by
`getRawFlags` yields `0`, and `setAllFlags` followed by `getRawFlags`
yields the all-ones value `2^w - 1` of the storage width (255 for the
8-bit width). -/
theorem clearAll_setAll (w flags flags2 : Nat) :
    getRawFlags (clearAllFlags flags) = 0 ∧
    getRawFlags (setAllFlags w flags2) = 2 ^ w - 1 := by
  constructor
  · rfl
  · simp [getRawFlags, setAllFlags, compl, Nat.xor_zero]

/-- Claim C8: a freshly constructed `FlagManager` has all flags
cleared: `getRawFlags` returns `0` and `checkFlag i` returns `false`
for every index `i`. -/
theorem fresh_all_clear (w : Nat) (i : Int) :
    getRawFlags mk = 0 ∧ checkFlag w mk i = false := by
  constructor
  · rfl
  · unfold checkFlag mk
    split
    · simp [Nat.zero_and]
    · rfl

/-- Claim C10: `setFlag` and `clearFlag` are idempotent for every
register state and every index, in range or not. -/
theorem set_clear_idempotent (w flags : Nat) (i : Int) :
    setFlag w (setFlag w flags i) i = setFlag w flags i ∧
    clearFlag w (clearFlag w flags i) i = clearFlag w flags i := by
  by_cases h : 0 ≤ i ∧ i < (w : Int) <;>
    simp [setFlag, clearFlag, h, Nat.or_assoc, Nat.or_self,
      Nat.and_assoc, Nat.and_self]

/-- Claim C3: for every register state and valid indices `i` and `j`
with `j ≠ i`: after `setFlag i`, `checkFlag i` returns `true` and
`checkFlag j` is unchanged; a subsequent `clearFlag i` makes
`checkFlag i` return `false`. -/
theorem setFlag_checkFlag_clearFlag (w flags : Nat) (i j : Int)
    (hi : 0 ≤ i ∧ i < (w : Int)) (hj : 0 ≤ j ∧ j < (w : Int))
    (hij : j ≠ i) :
    checkFlag w (setFlag w flags i) i = true ∧
    checkFlag w (setFlag w flags i) j = checkFlag w flags j ∧
    checkFlag w (clearFlag w (setFlag w flags i) i) i = false := by
  have hiw : i.toNat < w := by omega
  have hnm : i.toNat ≠ j.toNat := by omega
  refine ⟨?_, ?_, ?_⟩
  · rw [checkFlag_eq_testBit w _ i hi]
    simp [setFlag, hi, Nat.one_shiftLeft, Nat.testBit_or,
      Nat.testBit_two_pow_self]
  · rw [checkFlag_eq_testBit w _ j hj, checkFlag_eq_testBit w _ j hj]
    simp [setFlag, hi, Nat.one_shiftLeft, Nat.testBit_or,
      Nat.testBit_two_pow, hnm]
  · rw [checkFlag_eq_testBit w _ i hi]
    simp [clearFlag, setFlag, hi, compl, Nat.one_shiftLeft,
      Nat.testBit_and, Nat.testBit_xor, Nat.testBit_or,
      Nat.testBit_two_pow_self, Nat.testBit_two_pow_sub_one, hiw]

/-- Witness for C3: on the 8-bit register value `2`, setting flag 0
makes `checkFlag 0` true, leaves `checkFlag 1` unchanged, and clearing
flag 0 afterwards makes `checkFlag 0` false. -/
theorem setFlag_checkFlag_clearFlag_witness :
    checkFlag 8 (setFlag 8 2 0) 0 = true ∧
    checkFlag 8 (setFlag 8 2 0) 1 = checkFlag 8 2 1 ∧
    checkFlag 8 (clearFlag 8 (setFlag 8 2 0) 0) 0 = false :=
  setFlag_checkFlag_clearFlag 8 2 0 1 (by decide) (by decide) (by decide)

/-- Claim C7: `getFlagsString` and `getInverseFlagsString` each have
exactly `capacity` characters, the character at position `k` renders
the flag at index `capacity - 1 - k` (most-significant flag first) as
a `'1'`/`'0'`, and the two strings are character-wise complements. -/
theorem flags_strings_spec (w flags : Nat) :
    (getFlagsString w flags).length = w ∧
    (getInverseFlagsString w flags).length = w ∧
    getInverseFlagsString w flags =
      (getFlagsString w flags).map (fun c => if c = '1' then '0' else '1') ∧
    ∀ k : Nat, k < w →
      (getFlagsString w flags).getD k ' ' =
        (if flags.testBit (w - 1 - k) then '1' else '0') ∧
      (getInverseFlagsString w flags).getD k ' ' =
        (if flags.testBit (w - 1 - k) then '0' else '1') := by
  refine ⟨by simp [getFlagsString], by simp [getInverseFlagsString],
    ?_, ?_⟩
  · unfold getFlagsString getInverseFlagsString
    rw [List.map_map]
    congr 1
    funext i
    by_cases h : flags &&& (1 <<< i) ≠ 0 <;> simp [h, Function.comp]
  · intro k hk
    have hk1 : k < (getFlagsString w flags).length := by
      simp [getFlagsString]; omega
    have hk2 : k < (getInverseFlagsString w flags).length := by
      simp [getInverseFlagsString]; omega
    constructor
    · rw [List.getD_eq_getElem _ _ hk1]
      simp [getFlagsString, and_one_shift_ne_zero]
    · rw [List.getD_eq_getElem _ _ hk2]
      simp [getInverseFlagsString, and_one_shift_ne_zero]

/-- Witness for C7: for the 8-bit register value `129` (binary
`10000001`), both strings have length 8, they are character-wise
complements, and the first (most-significant) characters are `'1'`
and `'0'` respectively. -/
theorem flags_strings_spec_witness :
    (getFlagsString 8 129).length = 8 ∧
    (getInverseFlagsString 8 129).length = 8 ∧
    (getFlagsString 8 129).getD 0 ' ' =
      (if (129 : Nat).testBit 7 then '1' else '0') ∧
    (getInverseFlagsString 8 129).getD 0 ' ' =
      (if (129 : Nat).testBit 7 then '0' else '1') :=
  ⟨(flags_strings_spec 8 129).1, (flags_strings_spec 8 129).2.1,
   ((flags_strings_spec 8 129).2.2.2 0 (by decide)).1,
   ((flags_strings_spec 8 129).2.2.2 0 (by decide)).2⟩

end FlagManager

/-- Claim C2: `compareFlags` returns `1` when the two raw values are
equal (including both zero); otherwise `-1` when their bitwise AND is
non-zero; otherwise `0` — equality is checked before overlap, so two
equal non-zero values yield `1` even though their AND is non-zero. -/
theorem compareFlags_classification (a b : Nat) :
    (a = b → compareFlags a b = 1) ∧
    (a ≠ b → a &&& b ≠ 0 → compareFlags a b = -1) ∧
    (a ≠ b → a &&& b = 0 → compareFlags a b = 0) := by
  refine ⟨fun h => by simp [compareFlags, h],
    fun h1 h2 => by simp [compareFlags, h1, h2],
    fun h1 h2 => by simp [compareFlags, h1, h2]⟩

/-- Witness for C2: `10` vs `10` is exact match, `10` vs `6` (shared
bit 1) is partial match, `10` vs `5` (disjoint, unequal) is no match. -/
theorem compareFlags_classification_witness :
    compareFlags 10 10 = 1 ∧ compareFlags 10 6 = -1 ∧
    compareFlags 10 5 = 0 :=
  ⟨(compareFlags_classification 10 10).1 rfl,
   (compareFlags_classification 10 6).2.1 (by decide) (by decide),
   (compareFlags_classification 10 5).2.2 (by decide) (by decide)⟩

/-- Claim C9: `compareFlags` is symmetric. -/
theorem compareFlags_symm (a b : Nat) :
    compareFlags a b = compareFlags b a := by
  unfold compareFlags
  by_cases h : a = b
  · subst h; simp
  · have h2 : ¬ b = a := fun e => h e.symm
    simp [h, h2, Nat.and_comm a b]

/-- Claim C4: for every value `v` representable in the storage type,
`setFlags v` followed by `getRawFlags` returns exactly `v`; `setFlags`
performs no validation and adopts the value verbatim. -/
theorem setFlags_roundtrip (w flags v : Nat) (_h : v < 2 ^ w) :
    FlagManager.getRawFlags (FlagManager.setFlags flags v) = v := rfl

/-- Witness for C4: storing `165` in an empty 8-bit register reads
back as `165`. -/
theorem setFlags_roundtrip_witness :
    (165 : Nat) < 2 ^ 8 ∧
    FlagManager.getRawFlags (FlagManager.setFlags 0 165) = 165 :=
  ⟨by decide, setFlags_roundtrip 8 0 165 (by decide)⟩
